import Mathlib

/-!
# Verification of the session coordination and lifecycle engine

A shallow embedding, in Lean 4, of the core of the Discord session bot:
the per-user quota store (`src/utils/userData.js`), the per-session state
machine and action cycle (`src/sessions/Session.js`), the session manager
(`SessionManager`), the batched commentary generation
(`src/llm/client.js`), and the media batch fetcher (`MediaFetcher`).

External collaborators (Redis, the Discord transport, the content-source
APIs, and the generative service) are modelled as inputs: each external
call's outcome is a parameter of the embedded function, and the shared
stores are explicit state threaded through the definitions.  JavaScript
numbers that are only ever integers in the source (minutes, scores,
counters) are modelled as `Int`/`Nat`; millisecond timestamps
(`Date.now()`) as `Nat`.
-/

set_option autoImplicit false

namespace DBot

/-! ## Quota store (`src/utils/userData.js`)

The stored record's fields used by the core: `remainingMinutes` and
`isPremium`.  Each public mutator reads the record, transforms it, and
writes it back; the embedding is the pure transformation on the record.
-/

structure UserData where
  remainingMinutes : Int
  isPremium : Bool
  deriving DecidableEq, Repr

/-- Mutator `updateUserTime`: `newTime = Math.max(0, data.remainingMinutes - minutesUsed)`. -/
def updateUserTime (data : UserData) (minutesUsed : Int) : UserData :=
  { data with remainingMinutes := max 0 (data.remainingMinutes - minutesUsed) }

/-- Mutator `setUserTime`: `timeToSet = Math.max(0, minutes)`. -/
def setUserTime (data : UserData) (minutes : Int) : UserData :=
  { data with remainingMinutes := max 0 minutes }

/-- Mutator `addUserTime`: `timeToAdd = Math.max(0, minutesToAdd); remainingMinutes += timeToAdd`. -/
def addUserTime (data : UserData) (minutesToAdd : Int) : UserData :=
  { data with remainingMinutes := data.remainingMinutes + max 0 minutesToAdd }

/-! ## Elapsed time (`Session.js`)

`endSession` and the mid-cycle time check both compute
`Math.ceil((Date.now() - this.startTime) / 60000)`.
-/

/-- One minute in milliseconds (`60 * 1000`). -/
def MINUTE_MS : Nat := 60000

/-- The value `Math.ceil(elapsedMs / 60000)` for `elapsedMs = now - startTime`;
on naturals the ceiling division is `(e + 59999) / 60000`. -/
def elapsedMinutes (startTime now : Nat) : Nat :=
  (now - startTime + (MINUTE_MS - 1)) / MINUTE_MS

/-- C5: the minutes argument handed to `updateUserTime` at session end is exactly
the ceiling of elapsed milliseconds over one minute, and the actual decrease of
the stored balance is non-negative and never exceeds that ceiling. -/
theorem deduction_is_ceil_of_elapsed (startTime now : Nat) (d : UserData)
    (h0 : 0 ≤ d.remainingMinutes) :
    (now - startTime) ≤ elapsedMinutes startTime now * MINUTE_MS ∧
    elapsedMinutes startTime now * MINUTE_MS < (now - startTime) + MINUTE_MS ∧
    0 ≤ d.remainingMinutes -
        (updateUserTime d (elapsedMinutes startTime now)).remainingMinutes ∧
    d.remainingMinutes -
        (updateUserTime d (elapsedMinutes startTime now)).remainingMinutes ≤
      (elapsedMinutes startTime now : Int) := by
  have hpos : 0 < MINUTE_MS := by norm_num [MINUTE_MS]
  set e := now - startTime with he
  have hdm := Nat.div_add_mod (e + (MINUTE_MS - 1)) MINUTE_MS
  have hlt := Nat.mod_lt (e + (MINUTE_MS - 1)) hpos
  refine ⟨?_, ?_, ?_, ?_⟩
  · simp only [elapsedMinutes, ← he, MINUTE_MS] at *
    omega
  · simp only [elapsedMinutes, ← he, MINUTE_MS] at *
    omega
  · simp only [updateUserTime]
    omega
  · simp only [updateUserTime]
    omega

theorem deduction_is_ceil_of_elapsed_witness :
    (90000 : Nat) - 0 ≤ elapsedMinutes 0 90000 * MINUTE_MS ∧
    elapsedMinutes 0 90000 * MINUTE_MS < (90000 - 0) + MINUTE_MS ∧
    0 ≤ (⟨20, false⟩ : UserData).remainingMinutes -
        (updateUserTime ⟨20, false⟩ (elapsedMinutes 0 90000)).remainingMinutes ∧
    (⟨20, false⟩ : UserData).remainingMinutes -
        (updateUserTime ⟨20, false⟩ (elapsedMinutes 0 90000)).remainingMinutes ≤
      (elapsedMinutes 0 90000 : Int) :=
  deduction_is_ceil_of_elapsed 0 90000 ⟨20, false⟩ (by decide)

/-- C10: every quota mutation keeps the stored balance non-negative:
starting from a non-negative balance, any minute argument (negative or
oversized included) leaves `remainingMinutes ≥ 0`; for `updateUserTime` and
`setUserTime` this holds even without the precondition. -/
theorem quota_mutations_preserve_nonneg (d : UserData) (m : Int)
    (h : 0 ≤ d.remainingMinutes) :
    0 ≤ (updateUserTime d m).remainingMinutes ∧
    0 ≤ (setUserTime d m).remainingMinutes ∧
    0 ≤ (addUserTime d m).remainingMinutes := by
  refine ⟨?_, ?_, ?_⟩ <;> simp only [updateUserTime, setUserTime, addUserTime] <;> omega

theorem quota_mutations_preserve_nonneg_witness :
    0 ≤ (updateUserTime ⟨20, false⟩ (-7)).remainingMinutes ∧
    0 ≤ (setUserTime ⟨20, false⟩ (-7)).remainingMinutes ∧
    0 ≤ (addUserTime ⟨20, false⟩ (-7)).remainingMinutes :=
  quota_mutations_preserve_nonneg ⟨20, false⟩ (-7) (by decide)

/-! ## Per-subreddit pagination state (`Session.fetchNextRedditPage`)

`redditFetchState[subreddit] = { after, isFetching, allFetched, currentPage }`.
The method has two phases separated by the awaited page request:
the synchronous head (guards, `isFetching = true`, issue the request with the
current `after` cursor) and the continuation (`.then`/`.catch`/`.finally`)
applied to the request's outcome.  The raw Reddit post and the
suitability/gallery extraction are modelled with the resolved data the
source reads off them: gallery posts carry their per-item resolved media
URLs, and `isSuitableRedditMediaPost` (a collaborator predicate from
`redditClient.js`) is carried as a field of the post.
-/

structure RedditRawPost where
  /-- Whether `post.is_gallery && post.gallery_data && post.media_metadata`. -/
  isGalleryWithData : Bool
  /-- Per gallery item, `media_metadata[item.media_id]?.s?.u` after the
  `&amp;` replacement; `none` when the metadata lookup yields no URL. -/
  galleryUrls : List (Option String)
  /-- The field `post.url`. -/
  url : String
  /-- The verdict of `isSuitableRedditMediaPost(post)`. -/
  suitable : Bool
  deriving DecidableEq, Repr

/-- The loop over `result.posts` that builds `newItems` (gallery images are
expanded one-by-one; non-gallery posts pass through the suitability filter). -/
def extractNewItems (posts : List RedditRawPost) : List (String × RedditRawPost) :=
  posts.flatMap fun post =>
    if post.isGalleryWithData then
      post.galleryUrls.filterMap fun u => u.map fun url => (url, post)
    else if post.suitable then [(post.url, post)] else []

structure RedditFetchState where
  after : Option String
  isFetching : Bool
  allFetched : Bool
  currentPage : Nat
  deriving DecidableEq, Repr

/-- Initial per-subreddit state set up in `startTimers`:
`{ after: null, isFetching: false, allFetched: false, currentPage: 0 }`. -/
def initialRedditFetchState : RedditFetchState :=
  { after := none, isFetching := false, allFetched := false, currentPage := 0 }

/-- Outcome of one `getSubredditTopPosts` call: a resolved page
(`result.posts` and `result.after`) or a rejected promise. -/
inductive RedditFetchOutcome where
  | page (posts : List RedditRawPost) (nextAfter : Option String)
  | failure
  deriving DecidableEq, Repr

/-- JavaScript truthiness of the `after` cursor: `!state.after` holds for
`null`/`undefined` and for the empty string. -/
def jsFalsyCursor (a : Option String) : Bool :=
  match a with
  | none => true
  | some s => s.isEmpty

/-- Synchronous head of `fetchNextRedditPage`: the guard
(`!this.isActive || ...` and `state.isFetching || state.allFetched`) and the
`isFetching = true` mark.  Returns the updated state and, when a page request
is issued, the cursor it is issued with (`state.after`). -/
def fetchNextRedditPage_start (active : Bool) (s : RedditFetchState) :
    RedditFetchState × Option (Option String) :=
  if !active then (s, none)
  else if s.isFetching || s.allFetched then (s, none)
  else ({ s with isFetching := true }, some s.after)

/-- Continuation of `fetchNextRedditPage` applied to the request's outcome:
the `.then` branch (pool append, cursor advance, exhaustion on a falsy next
cursor or an empty page), the `.catch` branch (exhaustion on error), and the
`.finally` clearing of `isFetching`. -/
def fetchNextRedditPage_complete (active : Bool) (pool : List (String × RedditRawPost))
    (s : RedditFetchState) (outcome : RedditFetchOutcome) :
    List (String × RedditRawPost) × RedditFetchState :=
  match outcome with
  | .page posts nextAfter =>
    if !active then (pool, { s with isFetching := false })
    else if posts.length > 0 then
      (pool ++ extractNewItems posts,
       { s with after := nextAfter,
                currentPage := s.currentPage + 1,
                allFetched := s.allFetched || jsFalsyCursor nextAfter,
                isFetching := false })
    else (pool, { s with allFetched := true, isFetching := false })
  | .failure => (pool, { s with allFetched := true, isFetching := false })

/-- One observable event on a source's fetch state during a session. -/
inductive RedditFetchOp where
  | start (active : Bool)
  | complete (active : Bool) (outcome : RedditFetchOutcome)

/-- Apply one event; also report the cursor of the request it issued, if any. -/
def applyRedditFetchOp (op : RedditFetchOp)
    (ps : List (String × RedditRawPost) × RedditFetchState) :
    (List (String × RedditRawPost) × RedditFetchState) × Option (Option String) :=
  match op with
  | .start active =>
    let (s, req) := fetchNextRedditPage_start active ps.2
    ((ps.1, s), req)
  | .complete active outcome =>
    (fetchNextRedditPage_complete active ps.1 ps.2 outcome, none)

/-- Run a sequence of events, collecting every request issued. -/
def runRedditFetchOps (ops : List RedditFetchOp)
    (ps : List (String × RedditRawPost) × RedditFetchState) :
    (List (String × RedditRawPost) × RedditFetchState) × List (Option String) :=
  match ops with
  | [] => (ps, [])
  | op :: rest =>
    let (ps1, req) := applyRedditFetchOp op ps
    let (ps2, reqs) := runRedditFetchOps rest ps1
    (ps2, req.toList ++ reqs)

/-- The flag `allFetched` survives every event. -/
theorem allFetched_mono (op : RedditFetchOp)
    (ps : List (String × RedditRawPost) × RedditFetchState)
    (h : ps.2.allFetched = true) :
    ((applyRedditFetchOp op ps).1).2.allFetched = true := by
  rcases op with active | ⟨active, outcome⟩
  · simp only [applyRedditFetchOp, fetchNextRedditPage_start]
    rcases active <;> simp [h]
  · rcases outcome with ⟨posts, nextAfter⟩ | _
    · rcases active
      · simp [applyRedditFetchOp, fetchNextRedditPage_complete, h]
      · by_cases hp : posts.length > 0 <;>
          simp [applyRedditFetchOp, fetchNextRedditPage_complete, hp, h]
    · simp [applyRedditFetchOp, fetchNextRedditPage_complete, h]

/-- An exhausted source issues no request and stays exhausted over any
sequence of events. -/
theorem allFetched_no_requests (ops : List RedditFetchOp)
    (ps : List (String × RedditRawPost) × RedditFetchState)
    (h : ps.2.allFetched = true) :
    (runRedditFetchOps ops ps).2 = [] ∧
    ((runRedditFetchOps ops ps).1).2.allFetched = true := by
  induction ops generalizing ps with
  | nil => exact ⟨rfl, h⟩
  | cons op rest ih =>
    have hmono := allFetched_mono op ps h
    have hreq : (applyRedditFetchOp op ps).2 = none := by
      rcases op with active | ⟨active, outcome⟩
      · simp only [applyRedditFetchOp, fetchNextRedditPage_start]
        rcases active <;> simp [h]
      · simp [applyRedditFetchOp]
    have := ih (applyRedditFetchOp op ps).1 hmono
    simp only [runRedditFetchOps]
    rw [hreq] at *
    simpa using this

/-- C8: a refill is a no-op (state untouched, no request issued) as soon as
the source is already fetching **or** already exhausted — either trigger
alone suffices; and a source once exhausted is never refetched for the
remainder of the session: over any later sequence of events it issues no
request and never leaves the exhausted state. -/
theorem refill_noop_and_exhaustion_permanent (s : RedditFetchState)
    (pool : List (String × RedditRawPost)) (ops : List RedditFetchOp)
    (hskip : s.isFetching = true ∨ s.allFetched = true) :
    fetchNextRedditPage_start true s = (s, none) ∧
    (s.allFetched = true →
      (runRedditFetchOps ops (pool, s)).2 = [] ∧
      ((runRedditFetchOps ops (pool, s)).1).2.allFetched = true) := by
  refine ⟨?_, fun hexh => ⟨?_, ?_⟩⟩
  · simp only [fetchNextRedditPage_start]
    rcases hskip with h | h <;> simp [h]
  · exact (allFetched_no_requests ops (pool, s) hexh).1
  · exact (allFetched_no_requests ops (pool, s) hexh).2

theorem refill_noop_and_exhaustion_permanent_witness :
    fetchNextRedditPage_start true
        { after := some "t3_x", isFetching := true, allFetched := false, currentPage := 2 } =
      ({ after := some "t3_x", isFetching := true, allFetched := false, currentPage := 2 },
        none) ∧
    fetchNextRedditPage_start true
        { after := none, isFetching := false, allFetched := true, currentPage := 3 } =
      ({ after := none, isFetching := false, allFetched := true, currentPage := 3 }, none) ∧
    (runRedditFetchOps [.start true, .complete true (.page [] none), .start true]
        ([], { after := none, isFetching := false, allFetched := true, currentPage := 3 })).2 = [] ∧
    ((runRedditFetchOps [.start true, .complete true (.page [] none), .start true]
        ([], { after := none, isFetching := false, allFetched := true, currentPage := 3 })).1).2.allFetched
      = true := by
  have hfetching := refill_noop_and_exhaustion_permanent
    { after := some "t3_x", isFetching := true, allFetched := false, currentPage := 2 }
    [] [] (Or.inl rfl)
  have hexhausted := refill_noop_and_exhaustion_permanent
    { after := none, isFetching := false, allFetched := true, currentPage := 3 }
    [] [.start true, .complete true (.page [] none), .start true]
    (Or.inr rfl)
  exact ⟨hfetching.1, hexhausted.1, (hexhausted.2 rfl).1, (hexhausted.2 rfl).2⟩

/-! ## Session state (`src/sessions/Session.js`)

The mutable per-session state, plus instrumentation of the observable
external effects the claims speak about: the minute arguments handed to
`UserData.updateUserTime`, the number of `clearTimeout` calls, and the
number of `SessionManager.deleteSession` (registry removal) requests.
Timer handles are modelled by whether a handle is currently stored
(`setTimeout` stores one; it stays stored after firing until cleared or
overwritten, matching the JavaScript field holding a stale id).
The fire-and-forget premium profile-summary chain at the top of
`endSession` only issues external reads/writes through its promise chain
and touches no session state, so it is not part of the state model.
-/

inductive CharacterType where
  | real
  | fictional
  deriving DecidableEq, Repr

/-- A fetched media item `{url, post}` flattened to the post fields the
session and the commentary pipeline read (`tags`, `title`, `flair`). -/
structure MediaItem where
  url : String
  tags : List String
  title : Option String
  flair : Option String
  deriving DecidableEq, Repr

structure SessState where
  isActive : Bool
  startTime : Nat
  durationMinutes : Option Nat
  characterType : CharacterType
  postCycleCount : Nat
  mediaBatchQueue : List MediaItem
  commentaryQueue : List String
  postedMediaUrls : List String
  triggeredTags : List String
  lastSentMediaInfo : Option MediaItem
  redditPostsPool : List (String × RedditRawPost)
  redditFetchStates : List (String × RedditFetchState)
  currentMediaMessageId : Bool
  currentCommentaryMessageId : Bool
  actionLoopTimerId : Bool
  sessionEndTimerId : Bool
  deductionsRequested : List Nat
  timersCancelled : Nat
  registryRemovals : Nat
  deriving DecidableEq, Repr

/-- The `Session` constructor: fresh queues, sets and counters, `isActive`
true, `startTime = Date.now()`. -/
def mkSession (characterType : CharacterType) (now : Nat)
    (durationMinutes : Option Nat) : SessState :=
  { isActive := true
    startTime := now
    durationMinutes := durationMinutes
    characterType := characterType
    postCycleCount := 0
    mediaBatchQueue := []
    commentaryQueue := []
    postedMediaUrls := []
    triggeredTags := []
    lastSentMediaInfo := none
    redditPostsPool := []
    redditFetchStates := []
    currentMediaMessageId := false
    currentCommentaryMessageId := false
    actionLoopTimerId := false
    sessionEndTimerId := false
    deductionsRequested := []
    timersCancelled := 0
    registryRemovals := 0 }

/-- Method `endSession(reason)`: guarded by `if (!this.isActive) return`; computes
the rounded-up elapsed minutes and hands them to `UserData.updateUserTime`,
flips `isActive`, clears both timers (one `clearTimeout` per stored handle),
empties the queues/sets, and requests `SessionManager.deleteSession`. -/
def endSession (now : Nat) (reason : String) (s : SessState) : SessState :=
  if !s.isActive then s
  else
    let _ := reason
    { s with
      deductionsRequested := s.deductionsRequested ++ [elapsedMinutes s.startTime now]
      isActive := false
      timersCancelled := s.timersCancelled
        + (if s.actionLoopTimerId then 1 else 0)
        + (if s.sessionEndTimerId then 1 else 0)
      actionLoopTimerId := false
      sessionEndTimerId := false
      postedMediaUrls := []
      currentMediaMessageId := false
      currentCommentaryMessageId := false
      redditPostsPool := []
      redditFetchStates := []
      mediaBatchQueue := []
      commentaryQueue := []
      triggeredTags := []
      lastSentMediaInfo := none
      registryRemovals := s.registryRemovals + 1 }

/-- C4: ending a session is idempotent — a second call with any timestamp
and reason leaves the state of the first call untouched, and a session that
was active is charged once, has its stored timers cleared once, and requests
exactly one registry removal. -/
theorem endSession_idempotent (s : SessState) (n1 n2 : Nat) (r1 r2 : String) :
    endSession n2 r2 (endSession n1 r1 s) = endSession n1 r1 s ∧
    (s.isActive = true →
      (endSession n2 r2 (endSession n1 r1 s)).deductionsRequested =
        s.deductionsRequested ++ [elapsedMinutes s.startTime n1] ∧
      (endSession n2 r2 (endSession n1 r1 s)).registryRemovals =
        s.registryRemovals + 1 ∧
      (endSession n2 r2 (endSession n1 r1 s)).timersCancelled =
        s.timersCancelled + (if s.actionLoopTimerId then 1 else 0)
          + (if s.sessionEndTimerId then 1 else 0)) := by
  by_cases h : s.isActive <;> simp [endSession, h]

/-- A concrete running session used to instantiate the hypothesised theorems. -/
def sampleSess : SessState :=
  { mkSession CharacterType.fictional 0 none with
    actionLoopTimerId := true
    sessionEndTimerId := true
    startTime := 0 }

theorem endSession_idempotent_witness :
    endSession 120001 "b" (endSession 60001 "a" sampleSess) =
      endSession 60001 "a" sampleSess ∧
    (endSession 120001 "b" (endSession 60001 "a" sampleSess)).deductionsRequested =
      sampleSess.deductionsRequested ++ [elapsedMinutes sampleSess.startTime 60001] ∧
    (endSession 120001 "b" (endSession 60001 "a" sampleSess)).registryRemovals =
      sampleSess.registryRemovals + 1 ∧
    (endSession 120001 "b" (endSession 60001 "a" sampleSess)).timersCancelled =
      sampleSess.timersCancelled + (if sampleSess.actionLoopTimerId then 1 else 0)
        + (if sampleSess.sessionEndTimerId then 1 else 0) := by
  have h := endSession_idempotent sampleSess 60001 120001 "a" "b"
  exact ⟨h.1, h.2 rfl⟩

/-! ## Batched commentary generation (`LlmClient.generateBatchCommentary`)

The method builds one prompt for the whole batch, makes one generative
call, extracts the substring between the first `[` and the last `]` of the
raw response and runs `JSON.parse` on it, then accepts the value only if it
is an array whose elements are all strings.  The generative call and
`JSON.parse` are the collaborator boundary: the embedding takes the parsed
JSON value (`none` when the substring fails to parse) and the availability
of a model from the rotation (`getNextMainModel()` result).  Note the
method performs no comparison of the parsed array's length against the
batch size — that check lives in the caller (`executeNextActionCycle`).
-/

/-- JSON values as produced by `JSON.parse` on the extracted `[...]`
substring (objects never reach the accepting branch, which only
distinguishes arrays of strings from everything else). -/
inductive JsonVal where
  | str (s : String)
  | num (n : Int)
  | bool (b : Bool)
  | null
  | arr (xs : List JsonVal)

/-- Whether one parsed element is a string (the `typeof` check). -/
def JsonVal.isStr : JsonVal → Bool
  | .str _ => true
  | _ => false

/-- The string payloads of an all-string array. -/
def JsonVal.strings (xs : List JsonVal) : List String :=
  xs.filterMap fun x =>
    match x with
    | .str s => some s
    | _ => none

/-- Per-item context handed to the batch prompt
(`{tags, title, flair, imageAttributes}` built from the media queue). -/
structure MediaBatchInfo where
  tags : List String
  title : Option String
  flair : Option String
  imageAttributes : List String
  deriving DecidableEq, Repr

/-- The `mediaBatchInfo` mapping in `executeNextActionCycle`
(lines 444-450): tags/title/flair from the queued item, empty attributes. -/
def toBatchInfo (item : MediaItem) : MediaBatchInfo :=
  { tags := item.tags, title := item.title, flair := item.flair
    imageAttributes := [] }

/-- Method `generateBatchCommentary` after the collaborator boundary: `null` when
no model is available or the batch is empty; otherwise the parsed value is
accepted only when it is an array of strings (`Array.isArray` plus the
element check), with **no count validation**. -/
def generateBatchCommentary (modelAvailable : Bool)
    (mediaBatchInfo : List MediaBatchInfo) (parsed : Option JsonVal) :
    Option (List String) :=
  if !modelAvailable || mediaBatchInfo.isEmpty then none
  else
    match parsed with
    | some (JsonVal.arr xs) =>
      if xs.all JsonVal.isStr then some (JsonVal.strings xs) else none
    | _ => none

/-! ## The action cycle (`Session.executeNextActionCycle`)

One cycle, as a function of the session state and of the outcomes of the
external calls the cycle makes (quota read, DM channel fetch, media batch
fetch, generative call, Discord edit/send results).  The `real`-character
single-item path's random pool selection (and its possible synchronous
refetch) happens through the pool and the `fetchNextRedditPage` model
above; here it is abstracted to its outcome, the selected candidate and
the single-commentary result, because the claims settled on the cycle
concern the time check, the paired queues and the batch path.
A cycle is one event-loop activation: its external calls are taken at the
cycle's single `now`.
-/

structure CycleEnv where
  now : Nat
  /-- Result of `UserData.getUserPremiumStatus` (drives only which button row is attached). -/
  isPremium : Bool
  /-- Whether `getDmChannel` resolved a channel (failure ends the session). -/
  dmChannelOk : Bool
  /-- Result of `UserData.getUserTime`. -/
  remainingTime : Int
  /-- Outcome of the real-path pool selection (`candidate` after the loops). -/
  redditCandidate : Option MediaItem
  /-- Result `generateMediaCommentary(...).commentary` for the selected candidate. -/
  singleCommentary : Option String
  /-- Result of `MediaFetcher.fetchMediaBatch` (`null` coerced to `[]`). -/
  fetchedMediaBatch : List MediaItem
  /-- Whether `getNextMainModel()` returned a model. -/
  modelAvailable : Bool
  /-- The batch response's extracted `[...]` substring after `JSON.parse`. -/
  batchPayload : Option JsonVal
  /-- The edit of the existing commentary message succeeded. -/
  editCommentaryOk : Bool
  /-- The fresh commentary `send` succeeded. -/
  sendCommentaryOk : Bool
  /-- The edit of the existing media message succeeded. -/
  editMediaOk : Bool
  /-- The fresh media `send` succeeded. -/
  sendMediaOk : Bool

/-- Method `startActionLoopTimer`: clears a stored handle and stores a new one. -/
def startActionLoopTimer (s : SessState) : SessState :=
  if !s.isActive then s
  else
    { s with
      timersCancelled := s.timersCancelled + (if s.actionLoopTimerId then 1 else 0)
      actionLoopTimerId := true }

/-- Because `postedMediaUrls` is a `Set`: adding an element is idempotent. -/
def addPostedUrl (urls : List String) (url : String) : List String :=
  if urls.contains url then urls else urls ++ [url]

/-- Step 4 of the cycle: edit the existing commentary message if its id is
stored (resetting the id when the fetch/edit fails), then send a fresh one
when no id is stored (storing the new id on success). -/
def sendCommentaryStep (env : CycleEnv) (s : SessState) : SessState :=
  let s1 :=
    if s.currentCommentaryMessageId && !env.editCommentaryOk then
      { s with currentCommentaryMessageId := false }
    else s
  if !s1.currentCommentaryMessageId && env.sendCommentaryOk then
    { s1 with currentCommentaryMessageId := true }
  else s1

/-- Step 5 of the cycle: guarded by the truthiness of `mediaToSend.url`;
edit-else-send as for commentary, and the delivered URL joins the
`postedMediaUrls` dedup set only when the message was sent or edited. -/
def sendMediaStep (env : CycleEnv) (s : SessState) (url : String) : SessState :=
  if url.isEmpty then s
  else
    let editOk := s.currentMediaMessageId && env.editMediaOk
    let s1 :=
      if s.currentMediaMessageId && !env.editMediaOk then
        { s with currentMediaMessageId := false }
      else s
    let sendOk := !s1.currentMediaMessageId && env.sendMediaOk
    let s2 :=
      if sendOk then { s1 with currentMediaMessageId := true } else s1
    if editOk || sendOk then
      { s2 with postedMediaUrls := addPostedUrl s2.postedMediaUrls url }
    else s2

/-- Result of one cycle: the new state, what was handed to the send phase
(step 3 bails out unless both a media item and its commentary are present),
and whether the quota-exhaustion closing notice was attempted. -/
structure CycleResult where
  state : SessState
  mediaToSend : Option MediaItem
  commentaryToSend : Option String
  closingNoticeAttempted : Bool
  deriving DecidableEq, Repr

/-- Steps 3-6: skip (and re-arm the timer) unless both pieces are present;
otherwise remember the item for trigger feedback, deliver commentary and
media, and re-arm the timer. -/
def sendPhase (env : CycleEnv) (s : SessState) (mediaToSend : Option MediaItem)
    (commentaryToSend : Option String) : CycleResult :=
  match mediaToSend, commentaryToSend with
  | some m, some c =>
    let s1 := { s with lastSentMediaInfo := some m }
    let s2 := sendCommentaryStep env s1
    let s3 := sendMediaStep env s2 m.url
    { state := startActionLoopTimer s3
      mediaToSend := some m
      commentaryToSend := some c
      closingNoticeAttempted := false }
  | _, _ =>
    { state := startActionLoopTimer s
      mediaToSend := none
      commentaryToSend := none
      closingNoticeAttempted := false }

/-- The refill of the two batch queues (lines 423-462): store the fetched
batch, ask for one batched commentary generation, and keep the pair only
when the commentary count matches the stored batch's length — otherwise
discard both queues entirely. -/
def refillBatchQueues (modelAvailable : Bool) (fetched : List MediaItem)
    (parsed : Option JsonVal) : List MediaItem × List String :=
  if fetched.length > 0 then
    match generateBatchCommentary modelAvailable (fetched.map toBatchInfo) parsed with
    | some cs => if cs.length = fetched.length then (fetched, cs) else ([], [])
    | none => ([], [])
  else ([], [])

/-- Method `executeNextActionCycle`: inactive guard, DM channel fetch (failure ends
the session), the mid-session time check (exhaustion sends a best-effort
closing notice, ends the session and skips the cycle), the fast path
dequeuing one paired item from the two queues, the refill path, and the
send phase. -/
def executeNextActionCycle (env : CycleEnv) (s : SessState) : CycleResult :=
  if !s.isActive then ⟨s, none, none, false⟩
  else if !env.dmChannelOk then
    ⟨endSession env.now "DM Channel Fetch Failed" s, none, none, false⟩
  else if (elapsedMinutes s.startTime env.now : Int) ≥ env.remainingTime then
    ⟨endSession env.now "Ran out of time" s, none, none, true⟩
  else
    let s1 :=
      { s with
        timersCancelled := s.timersCancelled + (if s.actionLoopTimerId then 1 else 0)
        actionLoopTimerId := false }
    let s2 := { s1 with postCycleCount := s1.postCycleCount + 1 }
    match s2.mediaBatchQueue, s2.commentaryQueue with
    | m :: ms, c :: cs =>
      sendPhase env { s2 with mediaBatchQueue := ms, commentaryQueue := cs }
        (some m) (some c)
    | _, _ =>
      let s3 := { s2 with mediaBatchQueue := [], commentaryQueue := [] }
      match s3.characterType with
      | CharacterType.real =>
        let fetchedItem := env.redditCandidate
        let llmCommentary :=
          match fetchedItem with
          | some _ => env.singleCommentary
          | none => none
        (match fetchedItem, llmCommentary with
         | some item, some c => sendPhase env s3 (some item) (some c)
         | _, _ =>
           match s3.mediaBatchQueue, s3.commentaryQueue with
           | m :: ms, c :: cs =>
             sendPhase env { s3 with mediaBatchQueue := ms, commentaryQueue := cs }
               (some m) (some c)
           | _, _ => sendPhase env s3 none none)
      | CharacterType.fictional =>
        let r :=
          refillBatchQueues env.modelAvailable env.fetchedMediaBatch env.batchPayload
        let s4 := { s3 with mediaBatchQueue := r.1, commentaryQueue := r.2 }
        (match s4.mediaBatchQueue, s4.commentaryQueue with
         | m :: ms, c :: cs =>
           sendPhase env { s4 with mediaBatchQueue := ms, commentaryQueue := cs }
             (some m) (some c)
         | _, _ => sendPhase env s4 none none)

/-! ### Queue and pairing lemmas for the cycle -/

theorem startActionLoopTimer_queues (s : SessState) :
    (startActionLoopTimer s).mediaBatchQueue = s.mediaBatchQueue ∧
    (startActionLoopTimer s).commentaryQueue = s.commentaryQueue := by
  simp only [startActionLoopTimer]
  split_ifs <;> simp

theorem sendCommentaryStep_queues (env : CycleEnv) (s : SessState) :
    (sendCommentaryStep env s).mediaBatchQueue = s.mediaBatchQueue ∧
    (sendCommentaryStep env s).commentaryQueue = s.commentaryQueue := by
  simp only [sendCommentaryStep]
  split_ifs <;> simp

theorem sendMediaStep_queues (env : CycleEnv) (s : SessState) (url : String) :
    (sendMediaStep env s url).mediaBatchQueue = s.mediaBatchQueue ∧
    (sendMediaStep env s url).commentaryQueue = s.commentaryQueue := by
  simp only [sendMediaStep]
  split_ifs <;> simp

/-- The send phase never touches the two queues. -/
theorem sendPhase_queues (env : CycleEnv) (s : SessState) (m : Option MediaItem)
    (c : Option String) :
    (sendPhase env s m c).state.mediaBatchQueue = s.mediaBatchQueue ∧
    (sendPhase env s m c).state.commentaryQueue = s.commentaryQueue := by
  cases m <;> cases c <;>
    simp only [sendPhase] <;>
    constructor <;>
    simp [startActionLoopTimer_queues, sendCommentaryStep_queues, sendMediaStep_queues,
      (startActionLoopTimer_queues _).1, (startActionLoopTimer_queues _).2,
      (sendCommentaryStep_queues env _).1, (sendCommentaryStep_queues env _).2,
      (sendMediaStep_queues env _ _).1, (sendMediaStep_queues env _ _).2]

/-- The send phase hands over a media item exactly when it hands over a
commentary. -/
theorem sendPhase_paired (env : CycleEnv) (s : SessState) (m : Option MediaItem)
    (c : Option String) :
    ((sendPhase env s m c).mediaToSend.isSome ↔
      (sendPhase env s m c).commentaryToSend.isSome) := by
  cases m <;> cases c <;> simp [sendPhase]

theorem sendPhase_emits (env : CycleEnv) (s : SessState) (m : MediaItem) (c : String) :
    (sendPhase env s (some m) (some c)).mediaToSend = some m ∧
    (sendPhase env s (some m) (some c)).commentaryToSend = some c := by
  simp [sendPhase]

/-- A refill always leaves the two queues with equal lengths. -/
theorem refillBatchQueues_length (avail : Bool) (fetched : List MediaItem)
    (parsed : Option JsonVal) :
    (refillBatchQueues avail fetched parsed).1.length =
      (refillBatchQueues avail fetched parsed).2.length := by
  unfold refillBatchQueues
  split_ifs with hf
  · rcases hgen : generateBatchCommentary avail (fetched.map toBatchInfo) parsed with
      _ | cs
    · simp [hgen]
    · simp only [hgen]
      split_ifs with hl <;> simp [hl]
  · simp

/-- Equal queue lengths are preserved by a full cycle. -/
theorem executeNextActionCycle_queue_lengths (env : CycleEnv) (s : SessState)
    (h : s.mediaBatchQueue.length = s.commentaryQueue.length) :
    (executeNextActionCycle env s).state.mediaBatchQueue.length =
      (executeNextActionCycle env s).state.commentaryQueue.length := by
  by_cases hA : s.isActive
  case neg => simp [executeNextActionCycle, hA, h]
  case pos => ?_
  by_cases hdm : env.dmChannelOk
  case neg => simp [executeNextActionCycle, hA, hdm, endSession]
  case pos => ?_
  by_cases ht : (elapsedMinutes s.startTime env.now : Int) ≥ env.remainingTime
  case pos => simp [executeNextActionCycle, hA, hdm, ht, endSession]
  case neg => ?_
  rcases hm : s.mediaBatchQueue with _ | ⟨m, ms⟩ <;>
    rcases hc : s.commentaryQueue with _ | ⟨c, cs⟩
  · -- both empty: refill (or the real path)
    rcases hct : s.characterType with _ | _
    · rcases hcand : env.redditCandidate with _ | item
      · simp [executeNextActionCycle, hA, hdm, ht, hm, hc, hct, hcand,
          (sendPhase_queues _ _ _ _).1, (sendPhase_queues _ _ _ _).2]
      · rcases hsc : env.singleCommentary with _ | str
        · simp [executeNextActionCycle, hA, hdm, ht, hm, hc, hct, hcand, hsc,
            (sendPhase_queues _ _ _ _).1, (sendPhase_queues _ _ _ _).2]
        · simp [executeNextActionCycle, hA, hdm, ht, hm, hc, hct, hcand, hsc,
            (sendPhase_queues _ _ _ _).1, (sendPhase_queues _ _ _ _).2]
    · have hlen := refillBatchQueues_length env.modelAvailable env.fetchedMediaBatch
        env.batchPayload
      rcases hr1 : (refillBatchQueues env.modelAvailable env.fetchedMediaBatch
          env.batchPayload).1 with _ | ⟨rm, rms⟩ <;>
        rcases hr2 : (refillBatchQueues env.modelAvailable env.fetchedMediaBatch
            env.batchPayload).2 with _ | ⟨rc, rcs⟩ <;>
        rw [hr1, hr2] at hlen <;>
        simp only [List.length_nil, List.length_cons] at hlen
      · simp [executeNextActionCycle, hA, hdm, ht, hm, hc, hct, hr1, hr2,
          (sendPhase_queues _ _ _ _).1, (sendPhase_queues _ _ _ _).2]
      · omega
      · omega
      · simp only [executeNextActionCycle, hA, hdm, ht, hm, hc, hct, hr1, hr2]
        simp [hA, hdm, ht, hm, hc, hct, hr1, hr2,
          (sendPhase_queues _ _ _ _).1, (sendPhase_queues _ _ _ _).2]
        omega
  · rw [hm, hc] at h
    simp at h
  · rw [hm, hc] at h
    simp at h
  · -- fast path: dequeue one from each
    rw [hm, hc] at h
    simp only [List.length_cons] at h
    simp [executeNextActionCycle, hA, hdm, ht, hm, hc,
      (sendPhase_queues _ _ _ _).1, (sendPhase_queues _ _ _ _).2]
    omega

/-- The cycle hands a media item to the send phase exactly when it hands a
commentary: the two are only ever selected as a pair. -/
theorem executeNextActionCycle_paired (env : CycleEnv) (s : SessState) :
    ((executeNextActionCycle env s).mediaToSend.isSome ↔
      (executeNextActionCycle env s).commentaryToSend.isSome) := by
  by_cases hA : s.isActive
  case neg => simp [executeNextActionCycle, hA]
  case pos => ?_
  by_cases hdm : env.dmChannelOk
  case neg => simp [executeNextActionCycle, hA, hdm]
  case pos => ?_
  by_cases ht : (elapsedMinutes s.startTime env.now : Int) ≥ env.remainingTime
  case pos => simp [executeNextActionCycle, hA, hdm, ht]
  case neg => ?_
  rcases hm : s.mediaBatchQueue with _ | ⟨m, ms⟩ <;>
    rcases hc : s.commentaryQueue with _ | ⟨c, cs⟩ <;>
    rcases hct : s.characterType with _ | _ <;>
    rcases hcand : env.redditCandidate with _ | item <;>
    rcases hsc : env.singleCommentary with _ | str <;>
    rcases hr1 : (refillBatchQueues env.modelAvailable env.fetchedMediaBatch
        env.batchPayload).1 with _ | ⟨rm, rms⟩ <;>
    rcases hr2 : (refillBatchQueues env.modelAvailable env.fetchedMediaBatch
        env.batchPayload).2 with _ | ⟨rc, rcs⟩ <;>
    simp [executeNextActionCycle, hA, hdm, ht, hm, hc, hct, hcand, hsc, hr1, hr2,
      sendPhase_paired]

/-- C2: the media and commentary queues have equal length immediately after
every refill; a cycle preserves equal lengths; an item is handed to the send
phase only together with a commentary; and the fast path dequeues exactly
one element from the head of each queue per cycle. -/
theorem media_commentary_queues_lockstep (env : CycleEnv) (s : SessState)
    (h : s.mediaBatchQueue.length = s.commentaryQueue.length) :
    (∀ (avail : Bool) (fetched : List MediaItem) (parsed : Option JsonVal),
      (refillBatchQueues avail fetched parsed).1.length =
        (refillBatchQueues avail fetched parsed).2.length) ∧
    ((executeNextActionCycle env s).state.mediaBatchQueue.length =
      (executeNextActionCycle env s).state.commentaryQueue.length) ∧
    ((executeNextActionCycle env s).mediaToSend.isSome ↔
      (executeNextActionCycle env s).commentaryToSend.isSome) ∧
    (∀ (m : MediaItem) (ms : List MediaItem) (c : String) (cs : List String),
      s.isActive = true → env.dmChannelOk = true →
      ¬ ((elapsedMinutes s.startTime env.now : Int) ≥ env.remainingTime) →
      s.mediaBatchQueue = m :: ms → s.commentaryQueue = c :: cs →
      (executeNextActionCycle env s).mediaToSend = some m ∧
      (executeNextActionCycle env s).commentaryToSend = some c ∧
      (executeNextActionCycle env s).state.mediaBatchQueue = ms ∧
      (executeNextActionCycle env s).state.commentaryQueue = cs) := by
  refine ⟨fun avail fetched parsed => refillBatchQueues_length avail fetched parsed,
    executeNextActionCycle_queue_lengths env s h,
    executeNextActionCycle_paired env s, ?_⟩
  intro m ms c cs hA hdm ht hm hc
  simp [executeNextActionCycle, hA, hdm, ht, hm, hc,
    (sendPhase_queues _ _ _ _).1, (sendPhase_queues _ _ _ _).2,
    (sendPhase_emits _ _ _ _).1, (sendPhase_emits _ _ _ _).2]

/-- A concrete queued item and cycle environment for the witnesses. -/
def sampleItem : MediaItem :=
  { url := "https://files.example/a.jpg", tags := ["tag_a"], title := none, flair := none }

def sampleEnv : CycleEnv :=
  { now := 60000
    isPremium := false
    dmChannelOk := true
    remainingTime := 20
    redditCandidate := none
    singleCommentary := none
    fetchedMediaBatch := []
    modelAvailable := true
    batchPayload := none
    editCommentaryOk := true
    sendCommentaryOk := true
    editMediaOk := true
    sendMediaOk := true }

def sampleQueuedSess : SessState :=
  { sampleSess with mediaBatchQueue := [sampleItem], commentaryQueue := ["hold it"] }

theorem media_commentary_queues_lockstep_witness :
    (executeNextActionCycle sampleEnv sampleQueuedSess).mediaToSend = some sampleItem ∧
    (executeNextActionCycle sampleEnv sampleQueuedSess).commentaryToSend = some "hold it" ∧
    (executeNextActionCycle sampleEnv sampleQueuedSess).state.mediaBatchQueue = [] ∧
    (executeNextActionCycle sampleEnv sampleQueuedSess).state.commentaryQueue = [] :=
  (media_commentary_queues_lockstep sampleEnv sampleQueuedSess rfl).2.2.2
    sampleItem [] "hold it" [] rfl rfl (by decide) rfl rfl

/-- C6: when the rounded-up elapsed minutes reach the remaining quota, the
cycle attempts the closing notice, ends the session (handing exactly the
rounded-up elapsed minutes to the quota deduction), emits nothing, and skips
the rest of the cycle (the cycle counter is untouched). -/
theorem quota_exhaustion_ends_cycle (env : CycleEnv) (s : SessState)
    (hA : s.isActive = true) (hdm : env.dmChannelOk = true)
    (ht : env.remainingTime ≤ (elapsedMinutes s.startTime env.now : Int)) :
    executeNextActionCycle env s =
      ⟨endSession env.now "Ran out of time" s, none, none, true⟩ ∧
    (executeNextActionCycle env s).state.isActive = false ∧
    (executeNextActionCycle env s).closingNoticeAttempted = true ∧
    (executeNextActionCycle env s).mediaToSend = none ∧
    (executeNextActionCycle env s).state.deductionsRequested =
      s.deductionsRequested ++ [elapsedMinutes s.startTime env.now] ∧
    (executeNextActionCycle env s).state.postCycleCount = s.postCycleCount := by
  have ht' : (elapsedMinutes s.startTime env.now : Int) ≥ env.remainingTime := ht
  refine ⟨?_, ?_, ?_, ?_, ?_, ?_⟩ <;>
    simp [executeNextActionCycle, endSession, hA, hdm, ht']

theorem quota_exhaustion_ends_cycle_witness :
    (executeNextActionCycle { sampleEnv with now := 1200001 } sampleSess).state.isActive
      = false ∧
    (executeNextActionCycle { sampleEnv with now := 1200001 } sampleSess).closingNoticeAttempted
      = true ∧
    (executeNextActionCycle { sampleEnv with now := 1200001 } sampleSess).state.deductionsRequested
      = sampleSess.deductionsRequested ++ [elapsedMinutes sampleSess.startTime 1200001] ∧
    elapsedMinutes sampleSess.startTime 1200001 = 21 ∧
    (updateUserTime ⟨20, false⟩ (elapsedMinutes 0 1200001)).remainingMinutes = 0 := by
  have h := quota_exhaustion_ends_cycle { sampleEnv with now := 1200001 } sampleSess
    rfl rfl (by decide)
  exact ⟨h.2.1, h.2.2.1, h.2.2.2.2.1, by decide, by decide⟩

/-! ### The batch-commentary count check lives in the caller (C7) -/

/-- The payload shape `generateBatchCommentary` accepts: a JSON array whose
elements are all strings. -/
def isStringArrayPayload : Option JsonVal → Bool
  | some (JsonVal.arr xs) => xs.all JsonVal.isStr
  | _ => false

/-- A fetched batch of three items. -/
def sampleBatch3 : List MediaItem :=
  [ { url := "https://files.example/a.jpg", tags := ["a1"], title := none, flair := none },
    { url := "https://files.example/b.jpg", tags := ["a2"], title := none, flair := none },
    { url := "https://files.example/c.jpg", tags := ["a3"], title := none, flair := none } ]

/-- C7 counterexample: for a batch of three items whose payload parses into
only two commentary strings, `generateBatchCommentary` does **not** return
`none` — it returns the two strings; the count comparison is nowhere in the
function. -/
theorem generateBatchCommentary_count_mismatch_counterexample :
    generateBatchCommentary true (sampleBatch3.map toBatchInfo)
        (some (JsonVal.arr [JsonVal.str "one", JsonVal.str "two"])) =
      some ["one", "two"] ∧
    (["one", "two"] : List String).length ≠ (sampleBatch3.map toBatchInfo).length :=
  ⟨rfl, by decide⟩

/-- C7 amended: `generateBatchCommentary` returns `none` whenever the payload
is not a JSON array of strings (parse failure, non-array, non-string
elements); the count check is the caller's: when the generation returns a
string list whose length differs from the fetched batch's, the cycle discards
the whole batch — both queues end empty and nothing is handed to the send
phase, so the next cycle takes the refill path again. -/
theorem batch_discarded_on_count_mismatch (env : CycleEnv) (s : SessState)
    (avail : Bool) (infos : List MediaBatchInfo) (parsed : Option JsonVal)
    (cs : List String)
    (hshape : isStringArrayPayload parsed = false)
    (hA : s.isActive = true) (hdm : env.dmChannelOk = true)
    (ht : ¬ ((elapsedMinutes s.startTime env.now : Int) ≥ env.remainingTime))
    (hct : s.characterType = CharacterType.fictional)
    (hq : s.commentaryQueue = [])
    (hgen : generateBatchCommentary env.modelAvailable
        (env.fetchedMediaBatch.map toBatchInfo) env.batchPayload = some cs)
    (hmis : cs.length ≠ env.fetchedMediaBatch.length) :
    generateBatchCommentary avail infos parsed = none ∧
    refillBatchQueues env.modelAvailable env.fetchedMediaBatch env.batchPayload
      = ([], []) ∧
    (executeNextActionCycle env s).state.mediaBatchQueue = [] ∧
    (executeNextActionCycle env s).state.commentaryQueue = [] ∧
    (executeNextActionCycle env s).mediaToSend = none ∧
    (executeNextActionCycle env s).commentaryToSend = none := by
  have hrefill : refillBatchQueues env.modelAvailable env.fetchedMediaBatch
      env.batchPayload = ([], []) := by
    unfold refillBatchQueues
    split_ifs with hf
    · rw [hgen]
      simp [hmis]
    · rfl
  refine ⟨?_, hrefill, ?_⟩
  · unfold generateBatchCommentary
    split_ifs with h0
    · rfl
    · rcases parsed with _ | v
      · rfl
      · rcases v with s0 | n0 | b0 | _ | xs
        · rfl
        · rfl
        · rfl
        · rfl
        · simp only [isStringArrayPayload] at hshape
          simp [hshape]
  · rcases hm : s.mediaBatchQueue with _ | ⟨m0, ms0⟩ <;>
      simp [executeNextActionCycle, hA, hdm, ht, hm, hq, hct, hrefill, sendPhase,
        (startActionLoopTimer_queues _).1, (startActionLoopTimer_queues _).2]

theorem batch_discarded_on_count_mismatch_witness :
    generateBatchCommentary true [] (some (JsonVal.num 5)) = none ∧
    refillBatchQueues true sampleBatch3
        (some (JsonVal.arr [JsonVal.str "one", JsonVal.str "two"])) = ([], []) ∧
    (executeNextActionCycle
        { sampleEnv with
            fetchedMediaBatch := sampleBatch3
            batchPayload := some (JsonVal.arr [JsonVal.str "one", JsonVal.str "two"]) }
        sampleSess).state.mediaBatchQueue = [] ∧
    (executeNextActionCycle
        { sampleEnv with
            fetchedMediaBatch := sampleBatch3
            batchPayload := some (JsonVal.arr [JsonVal.str "one", JsonVal.str "two"]) }
        sampleSess).state.commentaryQueue = [] ∧
    (executeNextActionCycle
        { sampleEnv with
            fetchedMediaBatch := sampleBatch3
            batchPayload := some (JsonVal.arr [JsonVal.str "one", JsonVal.str "two"]) }
        sampleSess).mediaToSend = none ∧
    (executeNextActionCycle
        { sampleEnv with
            fetchedMediaBatch := sampleBatch3
            batchPayload := some (JsonVal.arr [JsonVal.str "one", JsonVal.str "two"]) }
        sampleSess).commentaryToSend = none :=
  batch_discarded_on_count_mismatch
    { sampleEnv with
        fetchedMediaBatch := sampleBatch3
        batchPayload := some (JsonVal.arr [JsonVal.str "one", JsonVal.str "two"]) }
    sampleSess true [] (some (JsonVal.num 5)) ["one", "two"]
    rfl rfl rfl (by decide) rfl rfl rfl (by decide)

/-! ## Session creation (`SessionManager.createSession`)

The method reads the user's registry key (`user_shard:<id>`), refuses when
any shard owns the user, otherwise builds a local `Session`, stores it in
the local map, and writes the registry key; when that write throws, the
local entry is deleted, the built session's `endSession` runs, and `null`
is returned.  The registry read's result and the write's success are the
collaborator boundary.  The model carries this user's slot of the local
map (`prior`) through the call.
-/

structure CreateSessionResult where
  /-- This user's entry in `localActiveSessions` after the call. -/
  localEntry : Option SessState
  /-- The value returned to the caller (`Session | null`). -/
  returned : Option SessState
  /-- On rollback, the built session after its `endSession` ran. -/
  tornDown : Option SessState
  deriving DecidableEq, Repr

def createSession (prior : Option SessState) (characterType : CharacterType)
    (now : Nat) (durationMinutes : Option Nat)
    (existingShardId : Option String) (redisSetOk : Bool) : CreateSessionResult :=
  match existingShardId with
  | some _ => ⟨prior, none, none⟩
  | none =>
    let newSession := mkSession characterType now durationMinutes
    if redisSetOk then ⟨some newSession, some newSession, none⟩
    else ⟨none, none, some (endSession now "Redis Registration Failed" newSession)⟩

/-- C3: `createSession` refuses (returns nothing, local map untouched)
whenever the registry lookup reports an owning shard; and when the registry
write fails after the local session was built, the local entry is removed,
the built session is torn down by the shared end routine (it is inactive and
has requested its registry removal), and the refusal is returned. -/
theorem createSession_refuses_and_rolls_back (prior : Option SessState)
    (ct : CharacterType) (now : Nat) (dur : Option Nat) :
    (∀ (sid : String) (ok : Bool),
      createSession prior ct now dur (some sid) ok =
        ⟨prior, none, none⟩) ∧
    (createSession prior ct now dur none false).returned = none ∧
    (createSession prior ct now dur none false).localEntry = none ∧
    (createSession prior ct now dur none false).tornDown =
      some (endSession now "Redis Registration Failed" (mkSession ct now dur)) ∧
    (endSession now "Redis Registration Failed" (mkSession ct now dur)).isActive
      = false ∧
    (endSession now "Redis Registration Failed" (mkSession ct now dur)).registryRemovals
      = 1 := by
  refine ⟨fun sid ok => rfl, rfl, rfl, rfl, ?_, ?_⟩ <;>
    simp [endSession, mkSession]

/-! ## The cross-shard creation race (C1)

Two shards (A = shard 0, B = shard 1) run `createSession` for the same
user against the shared registry.  The method suspends between the
registry `get` and the registry `set` (the local `Session` is built in the
continuation of the `get`), so each attempt is two atomic steps against
the shared store: the read (deciding refusal or local creation) and the
unconditional write (`SET`, not `SETNX`).  A schedule interleaves the
steps of the two shards.
-/

structure ShardProc where
  /-- Program counter: 0 = before the registry read, 1 = before the write, 2 = returned. -/
  pc : Nat
  /-- A local `Session` object was built and stored in this shard's map. -/
  hasLocalSession : Bool
  /-- Result: `some true` = returned a `Session`; `some false` = returned `null`. -/
  returnedSession : Option Bool
  deriving DecidableEq, Repr

def initShardProc : ShardProc := ⟨0, false, none⟩

structure RaceState where
  registry : Option Nat
  shardA : ShardProc
  shardB : ShardProc
  deriving DecidableEq, Repr

def initRaceState : RaceState := ⟨none, initShardProc, initShardProc⟩

/-- One atomic step of `createSession` on shard `sid`: read (refuse when an
owner exists, else build the local session), then write the owner key. -/
def stepProc (sid : Nat) (reg : Option Nat) (p : ShardProc) :
    Option Nat × ShardProc :=
  match p.pc, reg with
  | 0, some _ => (reg, { p with pc := 2, returnedSession := some false })
  | 0, none => (reg, { p with pc := 1, hasLocalSession := true })
  | 1, _ => (some sid, { p with pc := 2, returnedSession := some true })
  | _, _ => (reg, p)

def stepRace (who : Bool) (st : RaceState) : RaceState :=
  if who then
    let r := stepProc 0 st.registry st.shardA
    { st with registry := r.1, shardA := r.2 }
  else
    let r := stepProc 1 st.registry st.shardB
    { st with registry := r.1, shardB := r.2 }

def runRace (sched : List Bool) (st : RaceState) : RaceState :=
  sched.foldl (fun acc who => stepRace who acc) st

/-- C1 counterexample: under the interleaving A-read, B-read, A-write,
B-write both `createSession` attempts succeed and each shard holds a local
`Session` object — two active sessions for one user. -/
theorem concurrent_createSession_both_succeed :
    (runRace [true, false, true, false] initRaceState).shardA.returnedSession
      = some true ∧
    (runRace [true, false, true, false] initRaceState).shardB.returnedSession
      = some true ∧
    (runRace [true, false, true, false] initRaceState).shardA.hasLocalSession
      = true ∧
    (runRace [true, false, true, false] initRaceState).shardB.hasLocalSession
      = true := by
  decide

/-- C1 amended: when the two attempts are serialized (either order), exactly
one succeeds and exactly one local `Session` is ever built; the interleaved
check-then-write schedules can make both succeed. -/
theorem serialized_createSession_exactly_one :
    ((runRace [true, true, false, false] initRaceState).shardA.returnedSession
        = some true ∧
      (runRace [true, true, false, false] initRaceState).shardB.returnedSession
        = some false ∧
      (runRace [true, true, false, false] initRaceState).shardA.hasLocalSession
        = true ∧
      (runRace [true, true, false, false] initRaceState).shardB.hasLocalSession
        = false) ∧
    ((runRace [false, false, true, true] initRaceState).shardB.returnedSession
        = some true ∧
      (runRace [false, false, true, true] initRaceState).shardA.returnedSession
        = some false ∧
      (runRace [false, false, true, true] initRaceState).shardB.hasLocalSession
        = true ∧
      (runRace [false, false, true, true] initRaceState).shardA.hasLocalSession
        = false) := by
  decide

/-! ## The tag-indexed batch fetcher (`MediaFetcher.fetchMediaBatch`)

Each call draws random pages in `0..MAX_FETCH_PAGE`, never repeating a page
*within the call* (the per-call `attemptedPages` set), requests each drawn
page from the tag-search collaborator, filters suitable posts
(direct-media URL and score above 100), and accumulates unique items until
the batch is full or the attempt budget runs out.  The PRNG is modelled as
a finite stream of draws (the do-while loop discards draws already
attempted); the page request results are a function from page index to the
`searchPosts` outcome (`none` = API error).  The tag list and session id
only shape the query and the logs, so they are folded into that function.
-/

def MAX_FETCH_PAGE : Nat := 10

def COMMENTARY_BATCH_SIZE : Nat := 3

structure R34Post where
  id : Nat
  /-- The field `post.file_url`. -/
  file_url : String
  /-- The value `parseInt(post.score, 10)`, `none` when `NaN`. -/
  score : Option Int
  deriving DecidableEq, Repr

/-- Predicate `isDirectMediaUrl`: the URL matches
`/\.(jpeg|jpg|gif|png|webp|mp4|webm)$/i`. -/
def isDirectMediaUrl (url : String) : Bool :=
  !url.isEmpty &&
    (["jpeg", "jpg", "gif", "png", "webp", "mp4", "webm"].any fun ext =>
      url.toLower.endsWith ("." ++ ext))

/-- The batch-path suitability filter:
`post.file_url && isDirectMediaUrl(post.file_url) && !isNaN(score) && score > 100`. -/
def suitableForBatch (p : R34Post) : Bool :=
  !p.file_url.isEmpty && isDirectMediaUrl p.file_url &&
    (match p.score with
     | some sc => decide (100 < sc)
     | none => false)

/-- The `do { randomPageId = ... } while (attemptedPages.has(randomPageId))`
loop: consume draws until one not yet attempted (the model runs out of
stream instead of spinning on the PRNG). -/
def pickFreshPage (attempted : List Nat) : List Nat → Option (Nat × List Nat)
  | [] => none
  | d :: ds => if d ∈ attempted then pickFreshPage attempted ds else some (d, ds)

/-- The inner loop over a page's suitable posts: add items that are neither
already posted in the session nor already in this batch, until the batch is
full. -/
def addUniqueToBatch (postedMediaUrls : List String) (batchSize : Nat)
    (found : List (String × R34Post)) (posts : List R34Post) :
    List (String × R34Post) :=
  posts.foldl
    (fun acc post =>
      if batchSize ≤ acc.length then acc
      else if post.file_url ∉ postedMediaUrls ∧
          post.file_url ∉ acc.map Prod.fst then
        acc ++ [(post.file_url, post)]
      else acc)
    found

/-- The page-attempt loop of `fetchMediaBatch`; `fuel` is the remaining
attempt budget (`maxPageAttempts - currentAttempts`).  Returns the batch and
the pages requested, in order. -/
def fetchMediaBatchGo (pages : Nat → Option (List R34Post))
    (postedMediaUrls : List String) (batchSize maxPage : Nat) :
    Nat → List Nat → List Nat → List (String × R34Post) → List Nat →
      List (String × R34Post) × List Nat
  | 0, _, _, found, requested => (found, requested)
  | fuel + 1, attempted, draws, found, requested =>
    if batchSize ≤ found.length then (found, requested)
    else if maxPage + 1 ≤ attempted.length then (found, requested)
    else
      match pickFreshPage attempted draws with
      | none => (found, requested)
      | some (pg, rest) =>
        match pages pg with
        | none =>
          fetchMediaBatchGo pages postedMediaUrls batchSize maxPage fuel
            (attempted ++ [pg]) rest found (requested ++ [pg])
        | some posts =>
          if posts.isEmpty then
            fetchMediaBatchGo pages postedMediaUrls batchSize maxPage fuel
              (attempted ++ [pg]) rest found (requested ++ [pg])
          else
            fetchMediaBatchGo pages postedMediaUrls batchSize maxPage fuel
              (attempted ++ [pg]) rest
              (addUniqueToBatch postedMediaUrls batchSize found
                (posts.filter suitableForBatch))
              (requested ++ [pg])

/-- Method `fetchMediaBatch`: only the `fictional` type is supported; each call
starts with a fresh (empty) `attemptedPages` set. -/
def fetchMediaBatch (characterType : CharacterType)
    (pages : Nat → Option (List R34Post)) (postedMediaUrls : List String)
    (batchSize : Nat) (draws : List Nat) (maxPageAttempts : Nat) :
    List (String × R34Post) × List Nat :=
  match characterType with
  | CharacterType.real => ([], [])
  | CharacterType.fictional =>
    fetchMediaBatchGo pages postedMediaUrls batchSize MAX_FETCH_PAGE
      maxPageAttempts [] draws [] []

/-- A source collaborator with no posts on any page. -/
def emptyPages : Nat → Option (List R34Post) := fun _ => some []

/-- C9 counterexample: two consecutive refills (two `fetchMediaBatch` calls
with the session state unchanged in between) both request page 0 — the
`attemptedPages` set is local to each call, so page indexes are reused
across refills. -/
theorem page_reused_across_consecutive_refills :
    (fetchMediaBatch CharacterType.fictional emptyPages [] COMMENTARY_BATCH_SIZE
        [0, 1, 2, 3, 4] 5).2 = [0, 1, 2, 3, 4] ∧
    (fetchMediaBatch CharacterType.fictional emptyPages [] COMMENTARY_BATCH_SIZE
        [0, 1, 2, 3, 4] 5).2 = [0, 1, 2, 3, 4] ∧
    0 ∈ (fetchMediaBatch CharacterType.fictional emptyPages [] COMMENTARY_BATCH_SIZE
        [0, 1, 2, 3, 4] 5).2 := by
  decide

/-- A page picked by the do-while loop was never attempted before. -/
theorem pickFreshPage_not_attempted (attempted : List Nat) :
    ∀ (draws rest : List Nat) (pg : Nat),
      pickFreshPage attempted draws = some (pg, rest) → pg ∉ attempted := by
  intro draws
  induction draws with
  | nil => intro rest pg h; simp [pickFreshPage] at h
  | cons d ds ih =>
    intro rest pg h
    by_cases hd : d ∈ attempted
    · exact ih rest pg (by simpa [pickFreshPage, hd] using h)
    · simp only [pickFreshPage, hd, if_neg] at h
      obtain ⟨rfl, rfl⟩ : d = pg ∧ ds = rest := by
        simpa using h
      exact hd

/-- Within one `fetchMediaBatch` call, no page is ever requested twice. -/
theorem fetchMediaBatchGo_requested_nodup (pages : Nat → Option (List R34Post))
    (posted : List String) (bs mp : Nat) (fuel : Nat) :
    ∀ (attempted draws : List Nat) (found : List (String × R34Post))
      (req : List Nat),
      req.Nodup → (∀ x ∈ req, x ∈ attempted) →
      ((fetchMediaBatchGo pages posted bs mp fuel attempted draws found req).2).Nodup := by
  induction fuel with
  | zero =>
    intro attempted draws found req h1 _
    simpa [fetchMediaBatchGo] using h1
  | succ n ih =>
    intro attempted draws found req h1 h2
    by_cases hb : bs ≤ found.length
    · simpa [fetchMediaBatchGo, hb] using h1
    · by_cases ha : mp + 1 ≤ attempted.length
      · simpa [fetchMediaBatchGo, hb, ha] using h1
      · rcases hp : pickFreshPage attempted draws with _ | ⟨pg, rest⟩
        · simpa [fetchMediaBatchGo, hb, ha, hp] using h1
        · have hpg : pg ∉ attempted :=
            pickFreshPage_not_attempted attempted draws rest pg hp
          have hreq : (req ++ [pg]).Nodup := by
            have : pg ∉ req := fun hx => hpg (h2 pg hx)
            simp [List.nodup_append, h1, this]
          have hsub : ∀ x ∈ req ++ [pg], x ∈ attempted ++ [pg] := by
            intro x hx
            rcases List.mem_append.mp hx with hx | hx
            · exact List.mem_append.mpr (Or.inl (h2 x hx))
            · exact List.mem_append.mpr (Or.inr hx)
          rcases hpp : pages pg with _ | posts
          · simpa [fetchMediaBatchGo, hb, ha, hp, hpp] using
              ih (attempted ++ [pg]) rest found (req ++ [pg]) hreq hsub
          · by_cases hwe : posts.isEmpty
            · simpa [fetchMediaBatchGo, hb, ha, hp, hpp, hwe] using
                ih (attempted ++ [pg]) rest found (req ++ [pg]) hreq hsub
            · simpa [fetchMediaBatchGo, hb, ha, hp, hpp, hwe] using
                ih (attempted ++ [pg]) rest
                  (addUniqueToBatch posted bs found (posts.filter suitableForBatch))
                  (req ++ [pg]) hreq hsub

/-- C9 amended: within a single refill call the tag-indexed batch fetcher
never requests the same page twice; and the cursor-based source advances its
cursor between refills — after a successful non-empty page whose next cursor
differs from the submitted one, the next refill's request carries the new
cursor, not the old one.  (Across separate refill calls the batch fetcher
may re-request a page: see the counterexample.) -/
theorem pagination_not_reused_within_refill (pages : Nat → Option (List R34Post))
    (posted : List String) (bs : Nat) (draws : List Nat)
    (attempts : Nat) (s : RedditFetchState)
    (pool : List (String × RedditRawPost)) (posts : List RedditRawPost)
    (next : Option String)
    (hidle : s.isFetching = false) (hnexh : s.allFetched = false)
    (hposts : posts ≠ []) (hnext : jsFalsyCursor next = false)
    (hdiff : next ≠ s.after) :
    ((fetchMediaBatch CharacterType.fictional pages posted bs draws attempts).2).Nodup ∧
    (fetchNextRedditPage_start true s).2 = some s.after ∧
    (fetchNextRedditPage_start true
        (fetchNextRedditPage_complete true pool
          (fetchNextRedditPage_start true s).1 (.page posts next)).2).2 = some next ∧
    (fetchNextRedditPage_start true
        (fetchNextRedditPage_complete true pool
          (fetchNextRedditPage_start true s).1 (.page posts next)).2).2 ≠
      some s.after := by
  refine ⟨?_, ?_, ?_, ?_⟩
  · unfold fetchMediaBatch
    exact fetchMediaBatchGo_requested_nodup pages posted bs MAX_FETCH_PAGE attempts
      [] draws [] [] List.nodup_nil (by simp)
  · simp [fetchNextRedditPage_start, hidle, hnexh]
  · have hlen : 0 < posts.length := List.length_pos.mpr hposts
    simp [fetchNextRedditPage_start, fetchNextRedditPage_complete,
      hidle, hnexh, hlen, hnext]
  · have hlen : 0 < posts.length := List.length_pos.mpr hposts
    simp [fetchNextRedditPage_start, fetchNextRedditPage_complete,
      hidle, hnexh, hlen, hnext, hdiff]

/-- A non-gallery suitable Reddit post for the witnesses. -/
def samplePost : RedditRawPost :=
  { isGalleryWithData := false, galleryUrls := [],
    url := "https://i.example/p.jpg", suitable := true }

theorem pagination_not_reused_within_refill_witness :
    ((fetchMediaBatch CharacterType.fictional emptyPages [] 3 [0, 1, 2] 5).2).Nodup ∧
    (fetchNextRedditPage_start true initialRedditFetchState).2 = some none ∧
    (fetchNextRedditPage_start true
        (fetchNextRedditPage_complete true []
          (fetchNextRedditPage_start true initialRedditFetchState).1
          (.page [samplePost] (some "t3_abc"))).2).2 = some (some "t3_abc") ∧
    (fetchNextRedditPage_start true
        (fetchNextRedditPage_complete true []
          (fetchNextRedditPage_start true initialRedditFetchState).1
          (.page [samplePost] (some "t3_abc"))).2).2 ≠ some none := by
  have h := pagination_not_reused_within_refill emptyPages [] 3 [0, 1, 2] 5
    initialRedditFetchState [] [samplePost] (some "t3_abc")
    rfl rfl (by decide) (by decide) (by decide)
  have h2 : initialRedditFetchState.after = none := rfl
  refine ⟨h.1, ?_, h.2.2.1, ?_⟩
  · rw [h.2.1, h2]
  · rw [← h2]
    exact h.2.2.2

end DBot
